import Mathlib

/-!
Verification development for the ai_crawl repository.

The Python sources are shallowly embedded as executable Lean definitions:
strings are Lean `String` (or `List Char` where character-level reasoning
is needed), Python ints are `Int`/`Nat`, timestamps are `Int` (seconds),
exact arithmetic replaces IEEE floats where noted, and functions that can
raise return `Except`/`Option`.
-/

namespace AICrawl

/-- Python truthiness of an `Optional[str]` value: `None` and `""` are falsy. -/
def pyTruthyOptStr : Option String → Bool
  | none => false
  | some s => s ≠ ""

/-- ASCII-faithful model of Python `str.lower` applied to one character.
Python lower-cases the full Unicode range; all strings reasoned about in
this development are ASCII, where lower-casing is this character map. -/
def pyLowerChar (c : Char) : Char :=
  if 'A' ≤ c ∧ c ≤ 'Z' then Char.ofNat (c.toNat + 32) else c

/-- Python `str.lower` on a `List Char` (ASCII-faithful, character-wise). -/
def pyLower (l : List Char) : List Char :=
  l.map pyLowerChar

/-- Python `str.lower` on a `String` (ASCII-faithful). -/
def pyLowerStr (s : String) : String :=
  ⟨pyLower s.data⟩

/-- Python substring test `pat in l` for a non-empty pattern:
true iff `pat` occurs contiguously in `l`. -/
def hasSub (pat : List Char) : List Char → Bool
  | [] => pat.isPrefixOf []
  | c :: rest => pat.isPrefixOf (c :: rest) || hasSub pat rest

/-- Python substring test on `String`s. -/
def strHasSub (pat s : String) : Bool :=
  hasSub pat.data s.data

/-- Python `str.replace(old, new)` for a non-empty `old`: replaces all
non-overlapping occurrences, scanning left to right. The `Nat` argument is
structural-recursion fuel; called with the length of the scanned list it
is never exhausted. -/
def pyReplaceAux (old new : List Char) : Nat → List Char → List Char
  | 0, l => l
  | _ + 1, [] => []
  | fuel + 1, c :: rest =>
    if old.isPrefixOf (c :: rest) ∧ old ≠ [] then
      new ++ pyReplaceAux old new fuel (List.drop (old.length - 1) rest)
    else
      c :: pyReplaceAux old new fuel rest

instance {α β : Type} [DecidableEq α] [DecidableEq β] : DecidableEq (Except α β) :=
  fun x y =>
    match x, y with
    | .error a, .error b =>
      if h : a = b then isTrue (h ▸ rfl) else isFalse (fun hc => h (by cases hc; rfl))
    | .ok a, .ok b =>
      if h : a = b then isTrue (h ▸ rfl) else isFalse (fun hc => h (by cases hc; rfl))
    | .error _, .ok _ => isFalse (fun hc => Except.noConfusion hc)
    | .ok _, .error _ => isFalse (fun hc => Except.noConfusion hc)

/-- Python `s.replace(old, new)` on `String`s (for non-empty `old`). -/
def pyReplaceStr (s old new : String) : String :=
  ⟨pyReplaceAux old.data new.data s.data.length s.data⟩

/-- Embeds `ScraperRecipe` (src/scraper/models.py, dataclass fields with
their defaults). `Optional[str]` fields are `Option String`. -/
structure ScraperRecipe where
  domain : String := ""
  start_url : Option String := none
  list_selector : String := ""
  title_selector : String := ""
  link_selector : String := ""
  date_selector : Option String := none
  load_strategy : String := "static"
  wait_until : String := "domcontentloaded"
  wait_ms : Int := 0
  next_page_selector : Option String := none
  max_pages : Int := 1
  infinite_scroll : Bool := false
  scroll_times : Int := 0
  scroll_wait_ms : Int := 800
  pagination_mode : String := "none"
  load_more_selector : Option String := none
  page_pattern : Option String := none
  drupal_zero_based : Bool := false
  title_exclude_small : Bool := false
  title_exclude_time : Bool := false
  title_exclude_span : Bool := false
  exclude_current_page : Bool := false
  use_proxy : Bool := false
  rotate_ua : Bool := false
  accept_cookies : Bool := false
  deriving Repr, DecidableEq

/-- The test `'data-options' in str(self.__dict__).lower()` from
`ScraperRecipe.__post_init__`: the rendered dict contains the substring
`data-options` exactly when some string-valued field contains it (field
names, booleans and integers cannot produce it, and the separators between
rendered values prevent it from spanning two fields). -/
def dictHasDataOptions (r : ScraperRecipe) : Bool :=
  let fields : List String :=
    [r.domain, r.start_url.getD "", r.list_selector, r.title_selector,
     r.link_selector, r.date_selector.getD "", r.load_strategy, r.wait_until,
     r.next_page_selector.getD "", r.pagination_mode,
     r.load_more_selector.getD "", r.page_pattern.getD ""]
  fields.any (fun s => strHasSub "data-options" (pyLowerStr s))

/-- The Drupal auto-detection step of `ScraperRecipe.__post_init__`
(src/scraper/models.py, lines 113-122). On a freshly constructed instance
`hasattr(self, '_drupal_auto_detected')` is always false, so the branch
runs unconditionally. -/
def drupalAutoDetect (r : ScraperRecipe) : ScraperRecipe :=
  if pyTruthyOptStr r.page_pattern ∧
      (strHasSub "drupal" (pyLowerStr r.domain) ∨ dictHasDataOptions r ∨
        r.pagination_mode = "number") then
    { r with drupal_zero_based := true }
  else r

/-- The trailing coercions of `__post_init__`: non-positive `max_pages`
becomes 1, negative `wait_ms` becomes 0. -/
def coerceLimits (r : ScraperRecipe) : ScraperRecipe :=
  let r2 := if r.max_pages ≤ 0 then { r with max_pages := 1 } else r
  if r2.wait_ms < 0 then { r2 with wait_ms := 0 } else r2

/-- Embeds `ScraperRecipe.__post_init__` (src/scraper/models.py, lines
111-140): Drupal auto-detection, pagination-configuration validation
(a `ValueError` becomes `.error`), and coercion of `max_pages`/`wait_ms`. -/
def postInit (r : ScraperRecipe) : Except String ScraperRecipe :=
  let r1 := drupalAutoDetect r
  if r1.pagination_mode = "number" ∧ ¬ pyTruthyOptStr r1.page_pattern then
    .error "数字分页模式需要设置page_pattern"
  else if r1.pagination_mode = "next" ∧ ¬ pyTruthyOptStr r1.next_page_selector then
    .error "下一页链接模式需要设置next_page_selector"
  else if r1.pagination_mode = "loadmore" ∧ ¬ pyTruthyOptStr r1.load_more_selector then
    .error "加载更多模式需要设置load_more_selector"
  else
    .ok (coerceLimits r1)

/-- Embeds the numeric-pagination branch of `Scraper._get_next_page_url`
(src/scraper/scraper_main.py, lines 145-180): the `max_pages` guard
(`page_num >= (self.recipe.max_pages or 1) - 1`, with Python treating the
int `0` as falsy) followed by, when `pagination_mode == 'number'` and
`page_pattern` is truthy, substitution of `page_num + 1` (Drupal
zero-based) or `page_num + 2` (standard) for the `{n}` placeholder.
The selector-driven branches for the other pagination modes depend on the
fetched HTML and are not modelled; in those modes this slice returns
`none`. -/
def getNextPageUrlNumber (r : ScraperRecipe) (page_num : Int) : Option String :=
  if page_num ≥ (if r.max_pages = 0 then 1 else r.max_pages) - 1 then none
  else if r.pagination_mode = "number" ∧ pyTruthyOptStr r.page_pattern then
    let next_page_param : Int := if r.drupal_zero_based then page_num + 1 else page_num + 2
    some (pyReplaceStr (r.page_pattern.getD "") "{n}" (toString next_page_param))
  else none

/-! Composite AI score (src/api/endpoints/intelligence.py). -/

/-- Shape of one entry of the `评分详情` dict as inspected by the scoring
loop: either not a dict (`isinstance` fails), or a dict that may or may
not carry the `分数` key. Scores are modelled as exact rationals in place
of Python floats. -/
inductive ScoreData where
  | nonDict
  | dict (fenshu : Option ℚ)
  deriving Repr, DecidableEq

/-- The weights dict of `ai_process_single_intelligence` and
`ai_process_single_intelligence_with_date_extraction` (0.30, 0.20, 0.20,
0.15, 0.15 as exact rationals), in its iteration order. -/
def scoreWeights : List (String × ℚ) :=
  [("战略相关性", 3/10), ("行业影响力", 1/5), ("时效性紧迫性", 1/5),
   ("业务机会风险强度", 3/20), ("可操作性", 3/20)]

/-- The scoring loop: `total_score += score_data["分数"] * weight` for each
dimension whose entry is a dict carrying `分数`; other entries contribute
nothing. `get` is `scores.get`. -/
def computeTotalScore (get : String → Option ScoreData) : ℚ :=
  scoreWeights.foldl
    (fun acc dw =>
      match get dw.1 with
      | some (.dict (some v)) => acc + v * dw.2
      | _ => acc) 0

/-- Round a rational to the nearest integer, ties to even — the rounding
Python's `round` performs on the exact value (IEEE double representation
error of the float sum is elided; on the inputs of the theorems below the
sum is exactly representable at one decimal, where the two agree). -/
def roundHalfEven (t : ℚ) : ℤ :=
  let f := ⌊t⌋
  let frac := t - f
  if frac < 1/2 then f
  else if 1/2 < frac then f + 1
  else if f % 2 = 0 then f else f + 1

/-- Python `round(x, 1)` on an exact rational. -/
def pyRound1 (q : ℚ) : ℚ :=
  (roundHalfEven (q * 10) : ℚ) / 10

/-- The persisted `ai_score` value: `round(total_score, 1)`. -/
def aiScoreOf (get : String → Option ScoreData) : ℚ :=
  pyRound1 (computeTotalScore get)

/-- Test fixture: the sub-scores 8, 6, 10, 4, 2 of the claim. -/
def c3ExampleScores : String → Option ScoreData := fun s =>
  if s = "战略相关性" then some (.dict (some 8))
  else if s = "行业影响力" then some (.dict (some 6))
  else if s = "时效性紧迫性" then some (.dict (some 10))
  else if s = "业务机会风险强度" then some (.dict (some 4))
  else if s = "可操作性" then some (.dict (some 2))
  else none

/-! LLM response validation (src/services/ai_service.py). -/

/-- JSON-like values as inspected by `_validate_analysis_result`. -/
inductive JVal where
  | str (s : String)
  | num (q : ℚ)
  | bool (b : Bool)
  | null
  | dict (entries : List (String × JVal))

/-- A parsed JSON object (Python dict, keys unique). -/
abbrev JObj := List (String × JVal)

/-- Python `d.get(k)` / `d[k]`. -/
def jlookup (r : JObj) (k : String) : Option JVal :=
  (r.find? (fun p => p.1 = k)).map (fun p => p.2)

/-- Python dict assignment `d[k] = v`: overwrite in place, else append. -/
def setKey (r : JObj) (k : String) (v : JVal) : JObj :=
  if (r.find? (fun p => p.1 = k)).isSome then
    r.map (fun p => if p.1 = k then (k, v) else p)
  else r ++ [(k, v)]

/-- `MockConfig.OFFICIAL_TOPICS` (src/services/ai_service.py, line 46). -/
def OFFICIAL_TOPICS : List String :=
  ["健康与安全", "清洁技术机遇", "绿色建筑", "应对气候变化", "生物多样性", "其他"]

/-- The keys of `MockConfig.OFFICIAL_CATEGORIES` (line 47); `in` on a
Python dict tests key membership. -/
def OFFICIAL_CATEGORY_KEYS : List String :=
  ["政策动态", "前沿资讯", "必读报告"]

/-- `required_keys` of `_validate_analysis_result`. -/
def requiredKeys : List String :=
  ["议题", "类别", "摘要", "新标题", "评分详情"]

/-- `required_score_keys` of `_validate_analysis_result`. -/
def requiredScoreKeys : List String :=
  ["战略相关性", "行业影响力", "时效性紧迫性", "业务机会风险强度", "可操作性"]

/-- `all(k in result for k in required_keys)`. -/
def requiredKeysOk (r : JObj) : Bool :=
  requiredKeys.all (fun k => (jlookup r k).isSome)

/-- `result.get("议题") in config.OFFICIAL_TOPICS`: only a string equal to
a listed topic passes. -/
def topicOk (r : JObj) : Bool :=
  match jlookup r "议题" with
  | some (.str t) => OFFICIAL_TOPICS.contains t
  | _ => false

/-- `result.get("类别") in config.OFFICIAL_CATEGORIES` for hashable
operands: key membership, so only a string equal to a listed key passes
(numbers, booleans and `None` are hashable but are not keys). A
dict-valued operand is unhashable and raises `TypeError` instead; that
case is handled in `validateAnalysisResult` before this test. -/
def categoryOk (r : JObj) : Bool :=
  match jlookup r "类别" with
  | some (.str c) => OFFICIAL_CATEGORY_KEYS.contains c
  | _ => false

/-- One sub-dimension entry: must be a dict containing `分数`. -/
def scoreItemOk : Option JVal → Bool
  | some (.dict item) => (jlookup item "分数").isSome
  | _ => false

/-- The `评分详情` checks: a non-empty dict carrying all five
sub-dimensions, each a dict with a `分数` key. -/
def scoreDetailsOk (r : JObj) : Bool :=
  match jlookup r "评分详情" with
  | some (.dict sd) =>
    !sd.isEmpty && requiredScoreKeys.all (fun k => scoreItemOk (jlookup sd k))
  | _ => false

/-- Embeds `_validate_analysis_result` (src/services/ai_service.py, lines
826-862) as its sequential early-return chain. The chain can raise: the
category test `result.get("类别") not in config.OFFICIAL_CATEGORIES`
hashes its operand, so a dict-valued `类别` raises
`TypeError: unhashable type: 'dict'` (modelled as `.error` with that
message) — but only if the earlier checks passed. The topic test is list
membership and never hashes. -/
def validateAnalysisResult (r : JObj) : Except String Bool :=
  if r.isEmpty then .ok false
  else if ! requiredKeysOk r then .ok false
  else if ! topicOk r then .ok false
  else
    match jlookup r "类别" with
    | some (.dict _) => .error "unhashable type: 'dict'"
    | _ =>
      if ! categoryOk r then .ok false
      else if ! scoreDetailsOk r then .ok false
      else .ok true

/-- Slice of `DateExtractionResult` as read when building metadata
(`success`, `date`, `method`, `confidence`). -/
structure DateResult where
  success : Bool
  date : Option String
  method : String
  confidence : ℚ
  deriving Repr, DecidableEq

/-- Python string slicing `s[:n]` (by code points). -/
def strTake (s : String) (n : Nat) : String :=
  ⟨s.data.take n⟩

/-- The `_meta` dict attached to a valid analysis result (lines 756-771):
when a date-extraction result is present, its success flag, date, method
and confidence are recorded (the last three only on success, `None`
otherwise). -/
def mkMetaValid (cs : String) (clen : Nat) (fe : Option String) (ad : String)
    (dr : Option DateResult) : JVal :=
  .dict
    ([("content_source", .str cs), ("content_length", .num (clen : ℚ)),
      ("fetch_error", match fe with | some e => .str e | none => .null),
      ("analysis_date", .str ad)] ++
      (match dr with
       | some d =>
         [("date_extracted", .bool d.success),
          ("extracted_date",
            if d.success then (match d.date with | some s => .str s | none => .null)
            else .null),
          ("date_extraction_method", if d.success then .str d.method else .null),
          ("date_confidence", if d.success then .num d.confidence else .null)]
       | none => []))

/-- The default result returned when validation rejects the LLM response
(src/services/ai_service.py, lines 776-798): first official topic and
category, title as summary, truncated title as new title, all five
sub-dimension scores 0, and a `_meta` dict recording the failure. -/
def defaultInvalidResult (title cs : String) (clen : Nat) (ad : String)
    (dr : Option DateResult) : JObj :=
  [("议题", .str "健康与安全"),
   ("类别", .str "政策动态"),
   ("摘要", .str title),
   ("新标题", .str (strTake title 50)),
   ("评分详情", .dict (requiredScoreKeys.map
      (fun k => (k, .dict [("分数", .num 0), ("理由", .str "默认评分")])))),
   ("_meta", .dict
      [("content_source", .str cs),
       ("content_length", .num (clen : ℚ)),
       ("fetch_error", .str "AI分析结果验证失败"),
       ("analysis_date", .str ad),
       ("date_extracted", .bool (match dr with | some d => d.success | none => false)),
       ("extracted_date",
         match dr with
         | some d =>
           if d.success then (match d.date with | some s => .str s | none => .null)
           else .null
         | none => .null)])]

/-- The default result of the catch-all `except` handler of
`analyze_article_with_deepseek` (src/services/ai_service.py, lines
799-824): first official topic and category, `分析失败:`-prefixed
summary, all five sub-dimension scores 0 with `API调用失败` reasons (the
first carrying the truncated exception text), and a `_meta` dict whose
`fetch_error` is `API调用失败: ` plus the exception text. -/
def defaultApiFailureResult (title cs : String) (clen : Nat) (ad : String)
    (e : String) : JObj :=
  [("议题", .str "健康与安全"),
   ("类别", .str "政策动态"),
   ("摘要", .str ("分析失败: " ++ title)),
   ("新标题", .str (strTake title 50)),
   ("评分详情", .dict
      [("战略相关性", .dict
          [("分数", .num 0), ("理由", .str ("API调用失败: " ++ strTake e 50))]),
       ("行业影响力", .dict [("分数", .num 0), ("理由", .str "API调用失败")]),
       ("时效性紧迫性", .dict [("分数", .num 0), ("理由", .str "API调用失败")]),
       ("业务机会风险强度", .dict [("分数", .num 0), ("理由", .str "API调用失败")]),
       ("可操作性", .dict [("分数", .num 0), ("理由", .str "API调用失败")])]),
   ("_meta", .dict
      [("content_source", .str cs),
       ("content_length", .num (clen : ℚ)),
       ("fetch_error", .str ("API调用失败: " ++ e)),
       ("analysis_date", .str ad),
       ("date_extracted", .bool false),
       ("extracted_date", .null)])]

/-- Embeds the validation branch of `analyze_article_with_deepseek`
(src/services/ai_service.py, lines 752-824): a validated parsed response
gets `_meta` attached and is returned; a response validation rejects is
replaced by the zero-scored validation default; an exception raised
during validation (the unhashable `类别` case) is caught by the
surrounding `except Exception` and replaced by the zero-scored
API-failure default. No exception escapes, so the embedding is total. -/
def analyzeParsedResponse (parsed : JObj) (title cs : String) (clen : Nat)
    (fe : Option String) (ad : String) (dr : Option DateResult) : JObj :=
  match validateAnalysisResult parsed with
  | .ok true => setKey parsed "_meta" (mkMetaValid cs clen fe ad dr)
  | .ok false => defaultInvalidResult title cs clen ad dr
  | .error e => defaultApiFailureResult title cs clen ad e

/-- The `分数` value stored for sub-dimension `k` of a result. -/
def subScore (out : JObj) (k : String) : Option JVal :=
  match jlookup out "评分详情" with
  | some (.dict sd) =>
    match jlookup sd k with
    | some (.dict item) => jlookup item "分数"
    | _ => none
  | _ => none

/-- The `fetch_error` recorded in a result's `_meta`. -/
def metaFetchError (out : JObj) : Option JVal :=
  match jlookup out "_meta" with
  | some (.dict m) => jlookup m "fetch_error"
  | _ => none

/-- Fixture: a parsed response whose `类别` is a dict. All required keys
are present and the topic is official, so validation reaches the category
membership test and raises `TypeError` there. -/
def c4DictCategory : JObj :=
  [("议题", .str "健康与安全"), ("类别", .dict []), ("摘要", .str "s"),
   ("新标题", .str "t"), ("评分详情", .dict [])]

/-! Python string helpers shared by several embeddings. -/

/-- Python `str.isspace` on ASCII characters (codes 9-13, 28-31 and 32).
Unicode whitespace beyond ASCII is outside the scope of the theorems
below. -/
def pyIsSpace (c : Char) : Bool :=
  (9 ≤ c.toNat ∧ c.toNat ≤ 13) ∨ (28 ≤ c.toNat ∧ c.toNat ≤ 32)

/-- Python `str.strip()` (both ends, whitespace). -/
def pyStrip (l : List Char) : List Char :=
  ((l.dropWhile pyIsSpace).reverse.dropWhile pyIsSpace).reverse

/-- Python `str.strip()` on `String`s. -/
def pyStripStr (s : String) : String :=
  ⟨pyStrip s.data⟩

/-! Crawl save loop (src/api/endpoints/intelligence.py, `start_crawling`,
lines 1510-1650). Timestamps are seconds as `Int`; `daySecs` is one day,
so `timedelta(days=k)` is `k * daySecs`. -/

def daySecs : Int := 86400

/-- Slice of an `intelligence` table row touched by the save loop. -/
structure IntelRow where
  id : Nat
  title : String
  news_time : Option Int
  topic : String
  update_time : Int
  collect_time : Int
  deriving Repr, DecidableEq

/-- Slice of an `intelligence_sources` table row. -/
structure SourceLinkRow where
  intelligence_id : Nat
  url : String
  title : String
  domain : String
  fetch_time : Int
  deriving Repr, DecidableEq

/-- The two tables the loop writes, plus the autoincrement counter. -/
structure CrawlDB where
  nextId : Nat
  intel : List IntelRow
  sources : List SourceLinkRow
  deriving Repr, DecidableEq

/-- A scraped item after the date-parsing step: `newsTime` is `some t`
when `item.date` was present and `dateutil` parsed it, `none` when the
date was absent or unparseable (the parsing library itself is not
modelled). -/
structure CrawlItem where
  title : String
  url : String
  newsTime : Option Int
  deriving Repr, DecidableEq

/-- How the loop accounts one item (saved/updated/duplicate/out-of-range
counters). -/
inductive ItemOutcome where
  | saved
  | updated
  | duplicate
  | outOfRange
  deriving Repr, DecidableEq

/-- Embeds the body of the per-item save loop of `start_crawling`
(lines 1510-1650): the out-of-range discard
(`news_time < start_date - timedelta(days=7)`, checked only when a date
was parsed), then the same-title lookup (`SELECT ... LIMIT 1`), then
merge (fill in `news_time`/`topic`/`update_time` and add the source URL
if not already recorded), duplicate skip, or fresh insert of an
`Intelligence` + `IntelligenceSource` row pair. -/
def processCrawlItem (db : CrawlDB) (item : CrawlItem) (startDate now : Int)
    (topicName sourceDomain : String) : CrawlDB × ItemOutcome :=
  let outOfRangeB : Bool :=
    match item.newsTime with
    | some t => t < startDate - 7 * daySecs
    | none => false
  if outOfRangeB then (db, .outOfRange)
  else
    match db.intel.find? (fun row => row.title = item.title) with
    | some existing =>
      match existing.news_time, item.newsTime with
      | none, some t =>
        let intel2 := db.intel.map (fun row =>
          if row.id = existing.id then
            { row with news_time := some t, update_time := now, topic := topicName }
          else row)
        let hasSrc := db.sources.any (fun s =>
          s.intelligence_id = existing.id ∧ s.url = item.url)
        let sources2 :=
          if hasSrc then db.sources
          else db.sources ++
            [{ intelligence_id := existing.id, url := item.url, title := item.title,
               domain := sourceDomain, fetch_time := now }]
        ({ db with intel := intel2, sources := sources2 }, .updated)
      | _, _ => (db, .duplicate)
    | none =>
      let newRow : IntelRow :=
        { id := db.nextId, title := item.title, news_time := item.newsTime,
          topic := topicName, update_time := now, collect_time := now }
      ({ nextId := db.nextId + 1, intel := db.intel ++ [newRow],
         sources := db.sources ++
           [{ intelligence_id := db.nextId, url := item.url, title := item.title,
              domain := sourceDomain, fetch_time := now }] }, .saved)

/-! Intelligence list query (src/api/endpoints/intelligence.py,
`get_intelligence_list`, lines 1838-1847): the `news_time` sort branch
`ORDER BY news_time IS NULL, news_time DESC|ASC` with
`LIMIT page_size OFFSET (page-1)*page_size`. The WHERE conditions are
abstracted as a row predicate; the other `sort_by` branches are a plain
single-column `ORDER BY` and are not modelled. -/

/-- `news_time IS NULL` as the leading sort key: present dates (0) sort
before absent ones (1). -/
def newsTimeNullRank (a : Option Int) : Nat :=
  match a with
  | none => 1
  | some _ => 0

/-- The row comparison realising `ORDER BY news_time IS NULL,
news_time DESC|ASC`: two absent dates tie. -/
def newsTimeLeB (desc : Bool) (a b : Option Int) : Bool :=
  if newsTimeNullRank a ≠ newsTimeNullRank b then
    newsTimeNullRank a < newsTimeNullRank b
  else
    match a, b with
    | some x, some y => if desc then y ≤ x else x ≤ y
    | _, _ => true

def intelNewsTimeOrder (desc : Bool) (a b : IntelRow) : Prop :=
  newsTimeLeB desc a.news_time b.news_time = true

instance (desc : Bool) : DecidableRel (intelNewsTimeOrder desc) :=
  fun a b =>
    show Decidable (newsTimeLeB desc a.news_time b.news_time = true) from inferInstance

instance (desc : Bool) : IsTotal IntelRow (intelNewsTimeOrder desc) :=
  ⟨fun a b => by
    unfold intelNewsTimeOrder
    rcases ha : a.news_time with _ | x <;> rcases hb : b.news_time with _ | y <;>
      cases desc <;> simp [newsTimeLeB, newsTimeNullRank] <;> omega⟩

instance (desc : Bool) : IsTrans IntelRow (intelNewsTimeOrder desc) :=
  ⟨fun a b c hab hbc => by
    unfold intelNewsTimeOrder at *
    rcases ha : a.news_time with _ | x <;> rcases hb : b.news_time with _ | y <;>
      rcases hc : c.news_time with _ | z <;> rw [ha, hb] at hab <;>
      rw [hb, hc] at hbc <;> cases desc <;>
      simp [newsTimeLeB, newsTimeNullRank] at * <;> omega⟩

/-- Embeds the `sort_by="news_time"` path of `get_intelligence_list`: the
rows surviving the WHERE filters, in the comparator order the `ORDER BY`
demands (`insertionSort` standing for the database sort), paginated. -/
def getIntelligenceListNewsTime (rows : List IntelRow) (filt : IntelRow → Bool)
    (order : String) (page pageSize : Nat) : List IntelRow :=
  let desc : Bool := pyLowerStr order = "desc"
  let sorted := (rows.filter filt).insertionSort (intelNewsTimeOrder desc)
  (sorted.drop ((page - 1) * pageSize)).take pageSize

/-! Source list query (src/crud/crud_operations.py,
`get_sources_with_filter_and_sort`, lines 233-264, and its callers
src/api/endpoints/sources.py `api_get_sources_table`, lines 1251-1278). -/

/-- Slice of the `Source` ORM model: its queryable columns plus the
`topics` relationship (as related topic ids). Datetimes are `Int`
timestamps; SQL text comparison (binary collation) coincides with Lean's
lexicographic `String` order on ASCII data. -/
structure SourceRowM where
  id : Nat
  domain : String
  recipe_json : String
  created_at : Int
  updated_at : Int
  topics : List Nat
  deriving Repr, DecidableEq

/-- The orderable `Source` columns. -/
inductive SourceSortCol where
  | id
  | domain
  | recipe_json
  | created_at
  | updated_at
  deriving Repr, DecidableEq

/-- `getattr(Source, sort_by, Source.id)`: any existing column attribute
is returned, anything else falls back to `Source.id`. `Source` also has
the `topics` relationship attribute; ordering by it fails when the query
executes and is not modelled. -/
def getattrSortCol (s : String) : SourceSortCol :=
  if s = "id" then .id
  else if s = "domain" then .domain
  else if s = "recipe_json" then .recipe_json
  else if s = "created_at" then .created_at
  else if s = "updated_at" then .updated_at
  else .id

/-- Bytewise (SQL binary-collation) string comparison. Codepoint-wise
lexicographic order coincides with UTF-8 byte order. -/
def strLeB : List Char → List Char → Bool
  | [], _ => true
  | _ :: _, [] => false
  | c :: cs, d :: ds =>
    if c.toNat < d.toNat then true
    else if d.toNat < c.toNat then false
    else strLeB cs ds

theorem strLeB_total : ∀ a b : List Char, strLeB a b = true ∨ strLeB b a = true
  | [], _ => by left; rfl
  | _ :: _, [] => by right; rfl
  | c :: cs, d :: ds => by
    rcases Nat.lt_trichotomy c.toNat d.toNat with h | h | h
    · left; simp [strLeB, h]
    · have hcd : ¬ c.toNat < d.toNat := by omega
      have hdc : ¬ d.toNat < c.toNat := by omega
      simpa [strLeB, hcd, hdc] using strLeB_total cs ds
    · right; simp [strLeB, h]

theorem strLeB_trans : ∀ a b c : List Char,
    strLeB a b = true → strLeB b c = true → strLeB a c = true
  | [], _, _ => by intros; rfl
  | _ :: _, [], _ => by intro h; exact absurd h (by simp [strLeB])
  | _ :: _, _ :: _, [] => by intro _ h; exact absurd h (by simp [strLeB])
  | x :: xs, y :: ys, z :: zs => by
    intro hab hbc
    simp only [strLeB] at hab hbc ⊢
    rcases Nat.lt_trichotomy x.toNat y.toNat with h1 | h1 | h1 <;>
      rcases Nat.lt_trichotomy y.toNat z.toNat with h2 | h2 | h2
    · rw [if_pos (by omega)]
    · rw [if_pos (by omega)]
    · rw [if_neg (by omega), if_pos (by omega)] at hbc; simp at hbc
    · rw [if_pos (by omega)]
    · rw [if_neg (by omega), if_neg (by omega)] at hab hbc ⊢
      exact strLeB_trans xs ys zs hab hbc
    · rw [if_neg (by omega), if_pos (by omega)] at hbc; simp at hbc
    · rw [if_neg (by omega), if_pos (by omega)] at hab; simp at hab
    · rw [if_neg (by omega), if_pos (by omega)] at hab; simp at hab
    · rw [if_neg (by omega), if_pos (by omega)] at hab; simp at hab

/-- The `ORDER BY column ASC|DESC` comparison on `Source` rows, as a
Boolean. -/
def sourceSortLeB (c : SourceSortCol) (desc : Bool) (a b : SourceRowM) : Bool :=
  match c with
  | .id => if desc then b.id ≤ a.id else a.id ≤ b.id
  | .domain =>
    if desc then strLeB b.domain.data a.domain.data
    else strLeB a.domain.data b.domain.data
  | .recipe_json =>
    if desc then strLeB b.recipe_json.data a.recipe_json.data
    else strLeB a.recipe_json.data b.recipe_json.data
  | .created_at => if desc then b.created_at ≤ a.created_at else a.created_at ≤ b.created_at
  | .updated_at => if desc then b.updated_at ≤ a.updated_at else a.updated_at ≤ b.updated_at

/-- The `ORDER BY` relation the query sorts by. -/
def sourceSortRel (c : SourceSortCol) (desc : Bool) (a b : SourceRowM) : Prop :=
  sourceSortLeB c desc a b = true

instance (c : SourceSortCol) (desc : Bool) : DecidableRel (sourceSortRel c desc) :=
  fun a b => show Decidable (sourceSortLeB c desc a b = true) from inferInstance

instance (c : SourceSortCol) (desc : Bool) : IsTotal SourceRowM (sourceSortRel c desc) :=
  ⟨fun a b => by
    unfold sourceSortRel sourceSortLeB
    cases c <;> cases desc <;> simp <;>
      first
        | omega
        | exact strLeB_total _ _⟩

instance (c : SourceSortCol) (desc : Bool) : IsTrans SourceRowM (sourceSortRel c desc) :=
  ⟨fun a b x hab hbx => by
    unfold sourceSortRel sourceSortLeB at *
    cases c <;> cases desc <;> simp at * <;>
      first
        | omega
        | exact strLeB_trans _ _ _ hab hbx
        | exact strLeB_trans _ _ _ hbx hab⟩

/-- The direction test `order_by.lower() == 'desc'`. -/
def dirDesc (order : String) : Bool :=
  pyLowerStr order = "desc"

/-- Embeds `get_sources_with_filter_and_sort`: optional case-insensitive
domain substring filter (`q` truthy), optional topic filter (join with
the topic id, `topic_id` truthy — the Python int 0 is falsy), then
ordering by `getattr(Source, sort_by, Source.id)` in the requested
direction. -/
def getSourcesWithFilterAndSort (rows : List SourceRowM) (q : Option String)
    (topicId : Option Nat) (sortBy orderBy : String) : List SourceRowM :=
  let afterQ := rows.filter (fun r =>
    match q with
    | some qs =>
      if qs ≠ "" then strHasSub (pyLowerStr (pyStripStr qs)) (pyLowerStr r.domain)
      else true
    | none => true)
  let afterTopic := afterQ.filter (fun r =>
    match topicId with
    | some tid => if tid ≠ 0 then r.topics.contains tid else true
    | none => true)
  afterTopic.insertionSort (sourceSortRel (getattrSortCol sortBy) (dirDesc orderBy))

/-- The allow-list of `api_get_sources_table` / `api_get_sources_paginated`
(src/api/endpoints/sources.py): `valid_sort_fields`. -/
def validSortFields : List String :=
  ["id", "domain", "created_at", "updated_at"]

/-- Embeds the endpoint `api_get_sources_table` (sources.py, lines
1251-1278): sanitise `sort` against the allow-list (falling back to
`'id'`) and `order` against `{asc, desc}` (falling back to `'asc'`),
then run the query. -/
def apiGetSourcesTable (rows : List SourceRowM) (q : Option String)
    (topicFilter : Option Nat) (sort order : String) : List SourceRowM :=
  let sort2 := if validSortFields.contains sort then sort else "id"
  let order2 := if ["asc", "desc"].contains (pyLowerStr order) then order else "asc"
  getSourcesWithFilterAndSort rows q topicFilter sort2 order2

/-! Domain normalization (src/crud/crud_operations.py, `_parse_domain`,
lines 18-25), over the CPython 3.11 `urllib.parse.urlparse`. The model
works on `List Char`; it is faithful for ASCII input. The one elision:
`_checknetloc`, a no-op for ASCII netlocs, raises for certain non-ASCII
netlocs via NFKC normalization, which is not modelled (the model
accepts); every theorem below stays within ASCII. -/

/-- `scheme_chars` of `urllib.parse`. -/
def isSchemeChar (c : Char) : Bool :=
  c.isAlpha || c.isDigit || c = '+' || c = '-' || c = '.'

/-- `url.lstrip(_WHATWG_C0_CONTROL_OR_SPACE)`: strip leading chars ≤ 0x20. -/
def lstripC0 (l : List Char) : List Char :=
  l.dropWhile (fun c => c.toNat ≤ 32)

/-- Removal of `_UNSAFE_URL_BYTES_TO_REMOVE` (tab, CR, LF) everywhere. -/
def removeUnsafe (l : List Char) : List Char :=
  l.filter (fun c => ¬ (c = '\t' ∨ c = '\r' ∨ c = '\n'))

/-- Split at the first occurrence of `sep`: Python `s.split(sep, 1)` when
it finds the separator (`s.find(sep)` ≥ 0). -/
def splitFirst (sep : Char) : List Char → Option (List Char × List Char)
  | [] => none
  | c :: rest =>
    if c = sep then some ([], rest)
    else (splitFirst sep rest).map (fun p => (c :: p.1, p.2))

/-- The scheme split of `urlsplit`: `i = url.find(':')`; when `i > 0`,
the first character is an ASCII letter and everything before the colon is
a scheme character, the scheme is split off and lower-cased. Returns
(scheme, remainder). -/
def firstIsAsciiAlpha : List Char → Bool
  | c :: _ => c.toNat < 128 && c.isAlpha
  | [] => false

def schemeSplit (url : List Char) : List Char × List Char :=
  match splitFirst ':' url with
  | some (before, after) =>
    if before ≠ [] ∧ firstIsAsciiAlpha url ∧ before.all isSchemeChar then
      (pyLower before, after)
    else ([], url)
  | none => ([], url)

/-- `_splitnetloc`: the netloc runs to the first of `/`, `?`, `#`. -/
def splitnetloc (url : List Char) : List Char × List Char :=
  (url.takeWhile (fun c => ¬ (c = '/' ∨ c = '?' ∨ c = '#')),
   url.dropWhile (fun c => ¬ (c = '/' ∨ c = '?' ∨ c = '#')))

/-- `netloc.partition('[')[2].partition(']')[0]`. -/
def bracketedHost (netloc : List Char) : List Char :=
  match splitFirst '[' netloc with
  | some (_, after) =>
    match splitFirst ']' after with
    | some (before, _) => before
    | none => after
  | none => []

def isHexDigit (c : Char) : Bool :=
  c.isDigit || ('a' ≤ c ∧ c ≤ 'f') || ('A' ≤ c ∧ c ≤ 'F')

/-- Python `s.split(sep)` (all occurrences). -/
def pySplit (sep : Char) : List Char → List (List Char)
  | [] => [[]]
  | c :: rest =>
    if c = sep then [] :: pySplit sep rest
    else
      match pySplit sep rest with
      | [] => [[c]]
      | h :: t => (c :: h) :: t

/-- `ipaddress._parse_octet` validity: 1-3 ASCII digits, ≤ 255, no
leading zero. -/
def isIPv4Octet (l : List Char) : Bool :=
  l ≠ [] && l.length ≤ 3 && l.all Char.isDigit &&
  (l.length = 1 || l.headD '0' ≠ '0') &&
  l.foldl (fun acc c => acc * 10 + (c.toNat - 48)) 0 ≤ 255

/-- `ipaddress.IPv4Address` textual validity: four dotted octets. -/
def isIPv4 (l : List Char) : Bool :=
  let parts := pySplit '.' l
  parts.length = 4 && parts.all isIPv4Octet

/-- `ipaddress._parse_hextet` validity: 1-4 hex digits. -/
def isHextet (l : List Char) : Bool :=
  l ≠ [] && l.length ≤ 4 && l.all isHexDigit

/-- `ipaddress.IPv6Address._ip_int_from_string` validity (without the
scope id): colon-separated hextets, at most one `::` compression, an
optional embedded IPv4 tail (counted as two hextets). -/
def ipv6Valid (addr : List Char) : Bool :=
  let parts := pySplit ':' addr
  let n := parts.length
  if n < 3 then false
  else
    let lastp := parts.getLastD []
    let withV4 : Option (List (List Char)) :=
      if lastp.contains '.' then
        if isIPv4 lastp then some (parts.dropLast ++ [['0'], ['0']]) else none
      else some parts
    match withV4 with
    | none => false
    | some ps =>
      let m := ps.length
      if m > 9 then false
      else
        let inner := (ps.drop 1).dropLast
        let empties := (inner.filter (fun p => p.isEmpty)).length
        if empties > 1 then false
        else if empties = 1 then
          let skipIdx := 1 + inner.findIdx (fun p => p.isEmpty)
          let headEmpty := (ps.headD ['0']).isEmpty
          let lastEmpty := (ps.getLastD ['0']).isEmpty
          let partsHi := if headEmpty then skipIdx - 1 else skipIdx
          let partsLo0 := m - skipIdx - 1
          let partsLo := if lastEmpty then partsLo0 - 1 else partsLo0
          if headEmpty ∧ skipIdx - 1 ≠ 0 then false
          else if lastEmpty ∧ partsLo0 - 1 ≠ 0 then false
          else if partsHi + partsLo ≥ 8 then false
          else
            (ps.take partsHi).all isHextet && (ps.drop (m - partsLo)).all isHextet
        else
          if m ≠ 8 then false
          else if (ps.headD ['0']).isEmpty then false
          else if (ps.getLastD ['0']).isEmpty then false
          else ps.all isHextet

/-- `IPv6Address` with `_split_scope_id`: an optional `%scope` suffix,
non-empty and without a further `%`. -/
def ipv6WithScopeValid (host : List Char) : Bool :=
  match splitFirst '%' host with
  | some (addr, scope) =>
    if scope = [] ∨ scope.contains '%' then false else ipv6Valid addr
  | none => ipv6Valid host

/-- The IPvFuture check of `_check_bracketed_host`: the regular expression
`v[a-fA-F0-9]+\..+` anchored at both ends (`.` excludes newline). -/
def ipvFutureValid (host : List Char) : Bool :=
  match host with
  | 'v' :: rest =>
    let hex := rest.takeWhile isHexDigit
    let after := rest.dropWhile isHexDigit
    hex ≠ [] &&
      (match after with
       | '.' :: tail => tail ≠ [] && tail.all (fun c => c ≠ '\n')
       | _ => false)
  | _ => false

/-- `_check_bracketed_host`: an IPvFuture literal when the host starts
with `v`, otherwise `ip_address` must produce an IPv6 address (an IPv4
address in brackets, or an unparseable host, raises). -/
def checkBracketedHost (host : List Char) : Bool :=
  match host with
  | 'v' :: _ => ipvFutureValid host
  | _ => ipv6WithScopeValid host

structure SplitResult where
  scheme : List Char
  netloc : List Char
  path : List Char
  query : List Char
  fragment : List Char
  deriving Repr, DecidableEq

/-- Embeds CPython 3.11 `urllib.parse.urlsplit` (with
`allow_fragments=True`); `none` models a raised `ValueError`.
`_checknetloc` is a no-op for ASCII netlocs and is modelled as accepting
(see the section comment). -/
def pyUrlsplit (url0 : List Char) : Option SplitResult :=
  let url := removeUnsafe (lstripC0 url0)
  let (scheme, url1) := schemeSplit url
  let isNetloc : Bool := url1.take 2 = ['/', '/']
  let (netloc, url2) :=
    if isNetloc then splitnetloc (url1.drop 2) else ([], url1)
  if isNetloc ∧
      ((netloc.contains '[' ∧ ¬ netloc.contains ']') ∨
       (netloc.contains ']' ∧ ¬ netloc.contains '[')) then none
  else if isNetloc ∧ netloc.contains '[' ∧ netloc.contains ']' ∧
      ¬ checkBracketedHost (bracketedHost netloc) then none
  else
    let (url3, fragment) :=
      match splitFirst '#' url2 with
      | some (b, a) => (b, a)
      | none => (url2, [])
    let (path, query) :=
      match splitFirst '?' url3 with
      | some (b, a) => (b, a)
      | none => (url3, [])
    some ⟨scheme, netloc, path, query, fragment⟩

/-- `uses_params` of `urllib.parse`. -/
def usesParams : List (List Char) :=
  (["", "ftp", "hdl", "prospero", "http", "imap", "https", "shttp", "rtsp",
    "rtsps", "rtspu", "sip", "sips", "mms", "sftp", "tel"] :
      List String).map String.data

/-- `_splitparams`: drop `;params` from the last path segment. -/
def splitParams (url : List Char) : List Char :=
  if url.contains '/' then
    let revd := url.reverse
    let seg := (revd.takeWhile (fun c => c ≠ '/')).reverse
    let pre := (revd.dropWhile (fun c => c ≠ '/')).reverse
    match splitFirst ';' seg with
    | some (b, _) => pre ++ b
    | none => url
  else
    match splitFirst ';' url with
    | some (b, _) => b
    | none => url

/-- Embeds `urllib.parse.urlparse`: `urlsplit` plus the params split on
the path when the scheme uses params. Returns the (scheme, netloc, path)
triple `_parse_domain` reads. -/
def pyUrlparse (url : List Char) : Option (List Char × List Char × List Char) :=
  match pyUrlsplit url with
  | none => none
  | some sr =>
    let path :=
      if usesParams.contains sr.scheme ∧ sr.path.contains ';' then splitParams sr.path
      else sr.path
    some (sr.scheme, sr.netloc, path)

/-- Embeds `_parse_domain` (src/crud/crud_operations.py, lines 18-25):
strip, empty short-circuit, prepend `https://` when `://` is absent,
parse, take `netloc or path`, cut at the first `/`, strip a (lower-case,
pre-lower-casing) `www.` prefix, and lower-case. `none` models a raised
exception. -/
def parseDomain (raw : List Char) : Option (List Char) :=
  let raw1 := pyStrip raw
  if raw1 = [] then some []
  else
    let url := if hasSub ("://".data) raw1 then raw1 else ("https://".data) ++ raw1
    match pyUrlparse url with
    | none => none
    | some (_, netloc, path) =>
      let host0 := if netloc ≠ [] then netloc else path
      let host1 := host0.takeWhile (fun c => c ≠ '/')
      let host2 := if ("www.".data).isPrefixOf host1 then host1.drop 4 else host1
      some (pyLower host2)

/-- Normal form for domain-normalization idempotence: ASCII, already
stripped, lower-case, free of `/ ? # [ ]` and of tab/CR/LF, and not
beginning with `www.`. -/
def domainNormalForm (r : List Char) : Bool :=
  r.all (fun c => c.toNat < 128) &&
  (pyStrip r == r) &&
  r.all (fun c =>
    ¬ (c = '/' ∨ c = '?' ∨ c = '#' ∨ c = '[' ∨ c = ']' ∨
       c = '\t' ∨ c = '\r' ∨ c = '\n')) &&
  (pyLower r == r) &&
  ! (("www.".data).isPrefixOf r)

/-! Concrete fixtures used by witnesses. -/

/-- Fixture: an existing intelligence row with no date. -/
def c5Row : IntelRow :=
  { id := 1, title := "同一标题", news_time := none, topic := "旧议题",
    update_time := 0, collect_time := 0 }

/-- Fixture: a database holding only `c5Row`. -/
def c5Db : CrawlDB :=
  { nextId := 2, intel := [c5Row], sources := [] }

/-- Fixture: a crawl of the same title, this time with a parsed date. -/
def c5Item : CrawlItem :=
  { title := "同一标题", url := "https://a.com/x", newsTime := some 100 }

/-- Fixture: the expected database after merging `c5Item` into `c5Db`. -/
def c5Db2 : CrawlDB :=
  { nextId := 2,
    intel := [{ id := 1, title := "同一标题", news_time := some 100,
                topic := "议题A", update_time := 50, collect_time := 0 }],
    sources := [{ intelligence_id := 1, url := "https://a.com/x",
                  title := "同一标题", domain := "a.com", fetch_time := 50 }] }

/-- Fixture: an empty crawl database. -/
def c7Db : CrawlDB :=
  { nextId := 1, intel := [], sources := [] }

/-- Fixture: an item dated day 0 (far out of range when now is day 15). -/
def c7ItemOld : CrawlItem :=
  { title := "t1", url := "u1", newsTime := some 0 }

/-- Fixture: an item dated exactly `start_date - 6 days` for now = day 15. -/
def c7ItemEdge : CrawlItem :=
  { title := "t2", url := "u2", newsTime := some ((15 * daySecs - 7 * daySecs) - 6 * daySecs) }

/-- Fixture: an item with no parseable date. -/
def c7ItemNoDate : CrawlItem :=
  { title := "t3", url := "u3", newsTime := none }

/-- Fixture rows for the NULLS-last witness: two dateless rows and one
dated row. -/
def c6Rows : List IntelRow :=
  [{ id := 1, title := "a", news_time := none, topic := "", update_time := 0,
     collect_time := 0 },
   { id := 2, title := "b", news_time := none, topic := "", update_time := 0,
     collect_time := 0 },
   { id := 3, title := "c", news_time := some 5, topic := "", update_time := 0,
     collect_time := 0 }]

/-- Counterexample fixtures for the source-sort claim: two rows whose
`recipe_json` order is the reverse of their `id` order. -/
def c9RowA : SourceRowM :=
  { id := 1, domain := "a.com", recipe_json := "zzz", created_at := 0,
    updated_at := 0, topics := [] }

def c9RowB : SourceRowM :=
  { id := 2, domain := "b.com", recipe_json := "aaa", created_at := 0,
    updated_at := 0, topics := [] }

/-! Theorems -/

/-! Helper lemmas about recipe construction. -/

theorem drupalAutoDetect_pagination_mode (r : ScraperRecipe) :
    (drupalAutoDetect r).pagination_mode = r.pagination_mode := by
  unfold drupalAutoDetect; split <;> rfl

theorem drupalAutoDetect_page_pattern (r : ScraperRecipe) :
    (drupalAutoDetect r).page_pattern = r.page_pattern := by
  unfold drupalAutoDetect; split <;> rfl

theorem drupalAutoDetect_drupal_of_number (r : ScraperRecipe)
    (hp : pyTruthyOptStr r.page_pattern = true)
    (hmode : r.pagination_mode = "number") :
    (drupalAutoDetect r).drupal_zero_based = true := by
  unfold drupalAutoDetect
  rw [if_pos ⟨hp, Or.inr (Or.inr hmode)⟩]

theorem coerceLimits_max_pages (r : ScraperRecipe) :
    1 ≤ (coerceLimits r).max_pages := by
  have h2 : ∀ s : ScraperRecipe, 1 ≤ s.max_pages →
      1 ≤ (if s.wait_ms < 0 then { s with wait_ms := 0 } else s).max_pages := by
    intro s hs
    split
    · simpa
    · exact hs
  have h1 : 1 ≤ (if r.max_pages ≤ 0 then { r with max_pages := 1 } else r).max_pages := by
    split
    · simp
    · omega
  unfold coerceLimits
  exact h2 _ h1

theorem coerceLimits_wait_ms (r : ScraperRecipe) :
    0 ≤ (coerceLimits r).wait_ms := by
  have h2 : ∀ s : ScraperRecipe,
      0 ≤ (if s.wait_ms < 0 then { s with wait_ms := 0 } else s).wait_ms := by
    intro s
    split
    · simp
    · omega
  unfold coerceLimits
  exact h2 _

theorem coerceLimits_drupal (r : ScraperRecipe) :
    (coerceLimits r).drupal_zero_based = r.drupal_zero_based := by
  have h2 : ∀ s : ScraperRecipe,
      (if s.wait_ms < 0 then { s with wait_ms := 0 } else s).drupal_zero_based =
        s.drupal_zero_based := by
    intro s
    split <;> rfl
  have h1 : (if r.max_pages ≤ 0 then { r with max_pages := 1 } else r).drupal_zero_based =
      r.drupal_zero_based := by
    split <;> rfl
  unfold coerceLimits
  rw [h2, h1]

theorem postInit_ok_eq (r r' : ScraperRecipe) (h : postInit r = .ok r') :
    r' = coerceLimits (drupalAutoDetect r) := by
  simp only [postInit] at h
  split at h
  · exact Except.noConfusion h
  · split at h
    · exact Except.noConfusion h
    · split at h
      · exact Except.noConfusion h
      · injection h with h2
        exact h2.symm

theorem postInit_number_ok (r : ScraperRecipe)
    (hmode : r.pagination_mode = "number")
    (hp : pyTruthyOptStr r.page_pattern = true) :
    postInit r = .ok (coerceLimits { r with drupal_zero_based := true }) := by
  have hd : drupalAutoDetect r = { r with drupal_zero_based := true } := by
    unfold drupalAutoDetect
    rw [if_pos ⟨hp, Or.inr (Or.inr hmode)⟩]
  have hA : ¬ (({ r with drupal_zero_based := true } : ScraperRecipe).pagination_mode =
      "number" ∧
      ¬ pyTruthyOptStr ({ r with drupal_zero_based := true } :
        ScraperRecipe).page_pattern = true) := by
    rintro ⟨_, h2⟩
    exact h2 hp
  have hB : ¬ (({ r with drupal_zero_based := true } : ScraperRecipe).pagination_mode =
      "next" ∧
      ¬ pyTruthyOptStr ({ r with drupal_zero_based := true } :
        ScraperRecipe).next_page_selector = true) := by
    rintro ⟨h1, _⟩
    exact absurd (hmode.symm.trans h1) (by decide)
  have hC : ¬ (({ r with drupal_zero_based := true } : ScraperRecipe).pagination_mode =
      "loadmore" ∧
      ¬ pyTruthyOptStr ({ r with drupal_zero_based := true } :
        ScraperRecipe).load_more_selector = true) := by
    rintro ⟨h1, _⟩
    exact absurd (hmode.symm.trans h1) (by decide)
  unfold postInit
  rw [hd, if_neg hA, if_neg hB, if_neg hC]

theorem postInit_number_truthy (r r' : ScraperRecipe)
    (hmode : r.pagination_mode = "number") (h : postInit r = .ok r') :
    pyTruthyOptStr r.page_pattern = true := by
  by_cases hp : pyTruthyOptStr r.page_pattern = true
  · exact hp
  · exfalso
    simp only [postInit] at h
    rw [if_pos] at h
    · exact Except.noConfusion h
    · refine ⟨by rw [drupalAutoDetect_pagination_mode, hmode], ?_⟩
      rw [drupalAutoDetect_page_pattern]
      exact hp

/-- C2: for a recipe with `pagination_mode="number"` and
`page_pattern="https://x.com/news?page={n}"` (and enough pages left),
the next-page URL after page index 0 substitutes parameter value 1 into
the `{n}` placeholder when `drupal_zero_based` is true, and parameter
value 2 when it is false. -/
theorem c2_numeric_pagination_arithmetic (r : ScraperRecipe)
    (hmode : r.pagination_mode = "number")
    (hpat : r.page_pattern = some "https://x.com/news?page={n}")
    (hmp : 2 ≤ r.max_pages) :
    (r.drupal_zero_based = true →
      getNextPageUrlNumber r 0 = some "https://x.com/news?page=1") ∧
    (r.drupal_zero_based = false →
      getNextPageUrlNumber r 0 = some "https://x.com/news?page=2") := by
  have hmp0 : ¬ r.max_pages = 0 := by omega
  have hguard : ¬ ((0 : Int) ≥ (if r.max_pages = 0 then 1 else r.max_pages) - 1) := by
    rw [if_neg hmp0]; omega
  constructor <;> intro hd <;>
    · unfold getNextPageUrlNumber
      rw [if_neg hguard, hmode, hpat, hd]
      decide

/-- C2 witness: the theorem applied to two concrete recipes, one with
`drupal_zero_based` true and one with it false. -/
theorem c2_numeric_pagination_arithmetic_witness :
    getNextPageUrlNumber
        { pagination_mode := "number",
          page_pattern := some "https://x.com/news?page={n}",
          max_pages := 5, drupal_zero_based := true } 0 =
      some "https://x.com/news?page=1" ∧
    getNextPageUrlNumber
        { pagination_mode := "number",
          page_pattern := some "https://x.com/news?page={n}",
          max_pages := 5, drupal_zero_based := false } 0 =
      some "https://x.com/news?page=2" :=
  ⟨(c2_numeric_pagination_arithmetic _ rfl rfl (by decide)).1 rfl,
   (c2_numeric_pagination_arithmetic _ rfl rfl (by decide)).2 rfl⟩

/-- C8: `ScraperRecipe` construction validation. `pagination_mode="number"`
without `page_pattern` fails with a configuration error while the same
construction with a (truthy) `page_pattern` succeeds; `"next"` without
`next_page_selector` and `"loadmore"` without `load_more_selector` fail;
and every successfully constructed recipe satisfies `max_pages ≥ 1` and
`wait_ms ≥ 0`. -/
theorem c8_recipe_construction_validation :
    (postInit { pagination_mode := "number" } =
      .error "数字分页模式需要设置page_pattern") ∧
    (∀ p : String, p ≠ "" →
      postInit { pagination_mode := "number", page_pattern := some p } =
        .ok { pagination_mode := "number", page_pattern := some p,
              drupal_zero_based := true }) ∧
    (postInit { pagination_mode := "next" } =
      .error "下一页链接模式需要设置next_page_selector") ∧
    (postInit { pagination_mode := "loadmore" } =
      .error "加载更多模式需要设置load_more_selector") ∧
    (∀ r r' : ScraperRecipe, postInit r = .ok r' →
      1 ≤ r'.max_pages ∧ 0 ≤ r'.wait_ms) := by
  refine ⟨by decide, ?_, by decide, by decide, ?_⟩
  · intro p hp
    have hpt : pyTruthyOptStr (some p) = true := by simp [pyTruthyOptStr, hp]
    rw [postInit_number_ok _ rfl hpt]
    norm_num [coerceLimits]
  · intro r r' h
    rw [postInit_ok_eq r r' h]
    exact ⟨coerceLimits_max_pages _, coerceLimits_wait_ms _⟩

/-- C8 witness: the success case applied at the concrete pattern `"x"`,
and the invariants read off the concrete constructed recipe. -/
theorem c8_recipe_construction_validation_witness :
    ("x" : String) ≠ "" ∧
    postInit { pagination_mode := "number", page_pattern := some "x" } =
      .ok { pagination_mode := "number", page_pattern := some "x",
            drupal_zero_based := true } ∧
    (1 ≤ ({ pagination_mode := "number", page_pattern := some "x",
            drupal_zero_based := true : ScraperRecipe }).max_pages ∧
      0 ≤ ({ pagination_mode := "number", page_pattern := some "x",
             drupal_zero_based := true : ScraperRecipe }).wait_ms) :=
  ⟨by decide,
   c8_recipe_construction_validation.2.1 "x" (by decide),
   c8_recipe_construction_validation.2.2.2.2 _ _
     (c8_recipe_construction_validation.2.1 "x" (by decide))⟩

/-- C10: every `ScraperRecipe` that survives construction with
`pagination_mode="number"` has `drupal_zero_based = true` regardless of
the value passed in, because `__post_init__` auto-enables zero-based
numbering whenever `page_pattern` is truthy and the mode is `"number"`
(and a number-mode recipe with a falsy `page_pattern` fails validation). -/
theorem c10_number_mode_forces_drupal_zero_based (r r' : ScraperRecipe)
    (hmode : r.pagination_mode = "number")
    (hok : postInit r = .ok r') :
    r'.drupal_zero_based = true := by
  have hp := postInit_number_truthy r r' hmode hok
  rw [postInit_ok_eq r r' hok, coerceLimits_drupal,
    drupalAutoDetect_drupal_of_number r hp hmode]

/-- C10 witness: a recipe passed in with `drupal_zero_based := false`
still comes out of construction with the flag forced to true. -/
theorem c10_number_mode_forces_drupal_zero_based_witness :
    postInit { pagination_mode := "number", page_pattern := some "x",
               drupal_zero_based := false } =
      .ok { pagination_mode := "number", page_pattern := some "x",
            drupal_zero_based := true } ∧
    ({ pagination_mode := "number", page_pattern := some "x",
       drupal_zero_based := true : ScraperRecipe }).drupal_zero_based = true :=
  ⟨by decide,
   c10_number_mode_forces_drupal_zero_based
     { pagination_mode := "number", page_pattern := some "x",
       drupal_zero_based := false }
     { pagination_mode := "number", page_pattern := some "x",
       drupal_zero_based := true }
     rfl (by decide)⟩

/-- C3: for every analysis result carrying all five sub-dimension scores,
the persisted `ai_score` is the weighted sum strategic×0.30 +
industry×0.20 + timeliness×0.20 + business×0.15 + actionability×0.15
rounded to one decimal (exact-rational model of the float sum), and the
sub-scores 8, 6, 10, 4, 2 yield exactly 6.5. -/
theorem c3_composite_ai_score :
    (∀ (get : String → Option ScoreData) (a b c d e : ℚ),
      get "战略相关性" = some (.dict (some a)) →
      get "行业影响力" = some (.dict (some b)) →
      get "时效性紧迫性" = some (.dict (some c)) →
      get "业务机会风险强度" = some (.dict (some d)) →
      get "可操作性" = some (.dict (some e)) →
      aiScoreOf get =
        pyRound1 (a * (3/10) + b * (1/5) + c * (1/5) + d * (3/20) + e * (3/20))) ∧
    aiScoreOf c3ExampleScores = 13/2 := by
  constructor
  · intro get a b c d e h1 h2 h3 h4 h5
    unfold aiScoreOf computeTotalScore scoreWeights
    simp only [List.foldl_cons, List.foldl_nil, h1, h2, h3, h4, h5]
    congr 1
    ring
  · have h : computeTotalScore c3ExampleScores = 13/2 := by
      unfold computeTotalScore scoreWeights c3ExampleScores
      simp +decide only [List.foldl_cons, List.foldl_nil]
      norm_num
    unfold aiScoreOf
    rw [h]
    unfold pyRound1 roundHalfEven
    norm_num

/-- C3 witness: the formula applied to the concrete sub-score fixture. -/
theorem c3_composite_ai_score_witness :
    aiScoreOf c3ExampleScores =
      pyRound1 (8 * (3/10) + 6 * (1/5) + 10 * (1/5) + 4 * (3/20) + 2 * (3/20)) :=
  c3_composite_ai_score.1 c3ExampleScores 8 6 10 4 2 rfl rfl rfl rfl rfl

/-- Inversion: a `True` verdict of `_validate_analysis_result` means every
check passed. -/
theorem validateAnalysisResult_ok_true (r : JObj)
    (h : validateAnalysisResult r = .ok true) :
    requiredKeysOk r = true ∧ topicOk r = true ∧ categoryOk r = true ∧
      scoreDetailsOk r = true := by
  unfold validateAnalysisResult at h
  repeat' split at h
  all_goals simp_all

/-- Inversion: the only exception `_validate_analysis_result` can raise is
the `TypeError` from hashing a dict-valued `类别`. -/
theorem validateAnalysisResult_error (r : JObj) (e : String)
    (h : validateAnalysisResult r = .error e) :
    e = "unhashable type: 'dict'" := by
  unfold validateAnalysisResult at h
  repeat' split at h
  all_goals simp_all

/-- C4: an LLM response missing a required top-level key, whose topic is
not an official topic, whose category is not an official category string,
or missing one of the five scoring sub-dimensions, never passes
validation; the caller then returns a failure default whose five
sub-dimension scores are all 0 and whose metadata records the failure
reason — either the validation-rejection default (fetch_error
`AI分析结果验证失败`) or, when the category value is a dict so that the
membership test raises `TypeError`, the API-failure default of the
catch-all handler (fetch_error `API调用失败: ` plus the exception text).
No exception escapes (the embedding is a total function, mirroring the
source's catch-all handler). -/
theorem c4_invalid_response_zero_default
    (parsed : JObj) (title cs : String) (clen : Nat) (fe : Option String)
    (ad : String) (dr : Option DateResult)
    (hbad :
      requiredKeysOk parsed = false ∨
      (∀ t, jlookup parsed "议题" = some (.str t) →
        OFFICIAL_TOPICS.contains t = false) ∨
      (∀ c, jlookup parsed "类别" = some (.str c) →
        OFFICIAL_CATEGORY_KEYS.contains c = false) ∨
      (∀ sd, jlookup parsed "评分详情" = some (.dict sd) →
        ∃ k ∈ requiredScoreKeys, jlookup sd k = none)) :
    (∀ k ∈ requiredScoreKeys,
      subScore (analyzeParsedResponse parsed title cs clen fe ad dr) k =
        some (.num 0)) ∧
    ((analyzeParsedResponse parsed title cs clen fe ad dr =
        defaultInvalidResult title cs clen ad dr ∧
      metaFetchError (analyzeParsedResponse parsed title cs clen fe ad dr) =
        some (.str "AI分析结果验证失败")) ∨
     (analyzeParsedResponse parsed title cs clen fe ad dr =
        defaultApiFailureResult title cs clen ad "unhashable type: 'dict'" ∧
      metaFetchError (analyzeParsedResponse parsed title cs clen fe ad dr) =
        some (.str "API调用失败: unhashable type: 'dict'"))) := by
  have hnt : validateAnalysisResult parsed ≠ .ok true := by
    intro hv
    obtain ⟨h1, h2, h3, h4⟩ := validateAnalysisResult_ok_true parsed hv
    rcases hbad with h | h | h | h
    · rw [h] at h1; exact absurd h1 (by decide)
    · have ht : topicOk parsed = false := by
        unfold topicOk
        cases hj : jlookup parsed "议题" with
        | none => rfl
        | some v =>
          cases v with
          | str t => exact h t hj
          | num q => rfl
          | bool b => rfl
          | null => rfl
          | dict d => rfl
      rw [ht] at h2; exact absurd h2 (by decide)
    · have hc : categoryOk parsed = false := by
        unfold categoryOk
        cases hj : jlookup parsed "类别" with
        | none => rfl
        | some v =>
          cases v with
          | str c => exact h c hj
          | num q => rfl
          | bool b => rfl
          | null => rfl
          | dict d => rfl
      rw [hc] at h3; exact absurd h3 (by decide)
    · have hs : scoreDetailsOk parsed = false := by
        unfold scoreDetailsOk
        cases hj : jlookup parsed "评分详情" with
        | none => rfl
        | some v =>
          cases v with
          | str t => rfl
          | num q => rfl
          | bool b => rfl
          | null => rfl
          | dict sd =>
            obtain ⟨k, hk, hnone⟩ := h sd hj
            have hall : requiredScoreKeys.all (fun k => scoreItemOk (jlookup sd k)) =
                false := by
              rw [List.all_eq_false]
              exact ⟨k, hk, by simp [hnone, scoreItemOk]⟩
            simp [hall]
      rw [hs] at h4; exact absurd h4 (by decide)
  cases hok : validateAnalysisResult parsed with
  | error e =>
    have he : e = "unhashable type: 'dict'" :=
      validateAnalysisResult_error parsed e hok
    subst he
    have hout : analyzeParsedResponse parsed title cs clen fe ad dr =
        defaultApiFailureResult title cs clen ad "unhashable type: 'dict'" := by
      unfold analyzeParsedResponse
      rw [hok]
    refine ⟨?_, Or.inr ⟨hout, ?_⟩⟩
    · intro k hk
      rw [hout]
      simp only [requiredScoreKeys, List.mem_cons, List.not_mem_nil, or_false] at hk
      rcases hk with rfl | rfl | rfl | rfl | rfl <;> rfl
    · rw [hout]
      rfl
  | ok b =>
    cases b with
    | true => exact absurd hok hnt
    | false =>
      have hout : analyzeParsedResponse parsed title cs clen fe ad dr =
          defaultInvalidResult title cs clen ad dr := by
        unfold analyzeParsedResponse
        rw [hok]
      refine ⟨?_, Or.inl ⟨hout, ?_⟩⟩
      · intro k hk
        rw [hout]
        simp only [requiredScoreKeys, List.mem_cons, List.not_mem_nil, or_false] at hk
        rcases hk with rfl | rfl | rfl | rfl | rfl <;> rfl
      · rw [hout]
        rfl

/-- C4 witness: the empty response (every required key missing) produces
the zero-scored validation default with the failure reason in metadata;
the dict-valued-category fixture takes the exception path and produces the
zero-scored API-failure default. -/
theorem c4_invalid_response_zero_default_witness :
    requiredKeysOk [] = false ∧
    subScore (analyzeParsedResponse [] "标题" "cached" 0 none "2025-01-01" none)
        "战略相关性" = some (.num 0) ∧
    ((analyzeParsedResponse [] "标题" "cached" 0 none "2025-01-01" none =
        defaultInvalidResult "标题" "cached" 0 "2025-01-01" none ∧
      metaFetchError (analyzeParsedResponse [] "标题" "cached" 0 none "2025-01-01" none) =
        some (.str "AI分析结果验证失败")) ∨
     (analyzeParsedResponse [] "标题" "cached" 0 none "2025-01-01" none =
        defaultApiFailureResult "标题" "cached" 0 "2025-01-01" "unhashable type: 'dict'" ∧
      metaFetchError (analyzeParsedResponse [] "标题" "cached" 0 none "2025-01-01" none) =
        some (.str "API调用失败: unhashable type: 'dict'"))) ∧
    validateAnalysisResult c4DictCategory = .error "unhashable type: 'dict'" ∧
    analyzeParsedResponse c4DictCategory "标题" "cached" 0 none "2025-01-01" none =
      defaultApiFailureResult "标题" "cached" 0 "2025-01-01" "unhashable type: 'dict'" :=
  ⟨rfl,
   (c4_invalid_response_zero_default [] "标题" "cached" 0 none "2025-01-01" none
      (Or.inl rfl)).1 "战略相关性" (by simp [requiredScoreKeys]),
   (c4_invalid_response_zero_default [] "标题" "cached" 0 none "2025-01-01" none
      (Or.inl rfl)).2,
   rfl, rfl⟩

/-- C5: when a crawled item's title already exists (and the item is not
discarded by the range check that precedes the duplicate check), no second
`Intelligence` row is created; if the existing row lacks `news_time` and
the item has a parsed date, the row's `news_time`/`topic`/`update_time`
are updated and an `IntelligenceSource` row is added exactly when the URL
is not yet recorded for that row; otherwise the item is a duplicate and
nothing is written. -/
theorem c5_crawl_merge_vs_duplicate
    (db : CrawlDB) (item : CrawlItem) (startDate now : Int)
    (topicName sourceDomain : String) (db2 : CrawlDB) (oc : ItemOutcome)
    (existing : IntelRow)
    (hfind : db.intel.find? (fun row => row.title = item.title) = some existing)
    (hrange : ∀ t, item.newsTime = some t → startDate - 7 * daySecs ≤ t)
    (hout : processCrawlItem db item startDate now topicName sourceDomain = (db2, oc)) :
    db2.intel.length = db.intel.length ∧
    ((existing.news_time = none ∧ item.newsTime ≠ none) →
      oc = .updated ∧
      (∀ t, item.newsTime = some t →
        db2.intel = db.intel.map (fun row =>
          if row.id = existing.id then
            { row with news_time := some t, update_time := now, topic := topicName }
          else row)) ∧
      (db2.sources =
        if db.sources.any (fun s => s.intelligence_id = existing.id ∧ s.url = item.url) then
          db.sources
        else db.sources ++
          [{ intelligence_id := existing.id, url := item.url, title := item.title,
             domain := sourceDomain, fetch_time := now }])) ∧
    (¬ (existing.news_time = none ∧ item.newsTime ≠ none) →
      db2 = db ∧ oc = .duplicate) := by
  rcases hnt : item.newsTime with _ | t
  · -- no parsed date: the range check passes and the merge condition fails
    simp only [processCrawlItem, hnt, hfind] at hout
    rcases hen : existing.news_time with _ | u <;>
      · simp only [hen, Bool.false_eq_true, if_false] at hout
        obtain ⟨h1, h2⟩ := Prod.mk.injEq .. ▸ hout
        refine ⟨by rw [← h1], fun hprem => absurd rfl hprem.2, fun _ => ⟨h1.symm, h2.symm⟩⟩
  · have hle := hrange t hnt
    have hbf : decide (t < startDate - 7 * daySecs) = false := by
      simp only [decide_eq_false_iff_not]
      omega
    rcases hen : existing.news_time with _ | u
    · -- merge branch
      simp only [processCrawlItem, hnt, hbf, hfind, hen, Bool.false_eq_true,
        if_false] at hout
      obtain ⟨h1, h2⟩ := Prod.mk.injEq .. ▸ hout
      refine ⟨?_, fun _ => ⟨h2.symm, ?_, ?_⟩, fun hprem => absurd ⟨rfl, by simp⟩ hprem⟩
      · rw [← h1]
        simp [List.length_map]
      · intro u hu
        injection hu with h3
        subst h3
        rw [← h1]
      · rw [← h1]
    · -- existing row already dated: duplicate
      simp only [processCrawlItem, hnt, hbf, hfind, hen, Bool.false_eq_true,
        if_false] at hout
      obtain ⟨h1, h2⟩ := Prod.mk.injEq .. ▸ hout
      exact ⟨by rw [← h1], fun hprem => by simp [hen] at hprem,
        fun _ => ⟨h1.symm, h2.symm⟩⟩

/-- C7: with `days_back = 7` (`start_date = now - 7 days`), an item whose
parsed date is strictly older than `start_date - 7 days` is discarded
before the duplicate check and nothing is written, regardless of the
database contents; an item dated exactly `start_date - 6 days` is not
discarded by this check, and neither is an item with no parseable date. -/
theorem c7_out_of_range_grace_window
    (db : CrawlDB) (now : Int) (topicName sourceDomain : String) :
    (∀ (item : CrawlItem) (t : Int), item.newsTime = some t →
      t < (now - 7 * daySecs) - 7 * daySecs →
      processCrawlItem db item (now - 7 * daySecs) now topicName sourceDomain =
        (db, .outOfRange)) ∧
    (∀ item : CrawlItem, item.newsTime = some ((now - 7 * daySecs) - 6 * daySecs) →
      (processCrawlItem db item (now - 7 * daySecs) now topicName sourceDomain).2 ≠
        .outOfRange) ∧
    (∀ item : CrawlItem, item.newsTime = none →
      (processCrawlItem db item (now - 7 * daySecs) now topicName sourceDomain).2 ≠
        .outOfRange) := by
  refine ⟨?_, ?_, ?_⟩
  · intro item t hnt hlt
    simp [processCrawlItem, hnt, decide_eq_true hlt]
  · intro item hnt
    have hbf : decide ((now - 7 * daySecs) - 6 * daySecs <
        (now - 7 * daySecs) - 7 * daySecs) = false := by
      simp only [decide_eq_false_iff_not, daySecs]
      omega
    simp only [processCrawlItem, hnt, hbf, Bool.false_eq_true, if_false]
    cases hf : db.intel.find? (fun row => row.title = item.title) with
    | none => simp [hf]
    | some ex =>
      cases hen : ex.news_time with
      | none => simp [hf, hen]
      | some u => simp [hf, hen]
  · intro item hnt
    simp only [processCrawlItem, hnt, Bool.false_eq_true, if_false]
    cases hf : db.intel.find? (fun row => row.title = item.title) with
    | none => simp [hf]
    | some ex =>
      cases hen : ex.news_time with
      | none => simp [hf, hen]
      | some u => simp [hf, hen]

/-- C5 witness: merging a dated re-crawl of a dateless existing title
updates that row in place (no second row) and records the new source. -/
theorem c5_crawl_merge_vs_duplicate_witness :
    c5Db.intel.find? (fun row => row.title = c5Item.title) = some c5Row ∧
    processCrawlItem c5Db c5Item 0 50 "议题A" "a.com" = (c5Db2, .updated) ∧
    c5Db2.intel.length = c5Db.intel.length := by
  have happ := c5_crawl_merge_vs_duplicate c5Db c5Item 0 50 "议题A" "a.com"
    c5Db2 .updated c5Row (by decide)
    (fun t ht => by
      simp [c5Item] at ht
      simp [daySecs]
      omega)
    (by decide)
  exact ⟨by decide, by decide, happ.1⟩

/-- C7 witness: with `now = 15 days`, an item dated day 0 (more than 14
days old) is discarded untouched; items dated exactly `start_date - 6
days` or undated are not discarded by the range check. -/
theorem c7_out_of_range_grace_window_witness :
    processCrawlItem c7Db c7ItemOld
        (15 * daySecs - 7 * daySecs) (15 * daySecs) "议题" "d.com" =
      (c7Db, .outOfRange) ∧
    (processCrawlItem c7Db c7ItemEdge
        (15 * daySecs - 7 * daySecs) (15 * daySecs) "议题" "d.com").2 ≠
      .outOfRange ∧
    (processCrawlItem c7Db c7ItemNoDate
        (15 * daySecs - 7 * daySecs) (15 * daySecs) "议题" "d.com").2 ≠
      .outOfRange :=
  ⟨(c7_out_of_range_grace_window c7Db (15 * daySecs) "议题" "d.com").1 c7ItemOld 0 rfl
      (by norm_num [daySecs]),
   (c7_out_of_range_grace_window c7Db (15 * daySecs) "议题" "d.com").2.1 c7ItemEdge rfl,
   (c7_out_of_range_grace_window c7Db (15 * daySecs) "议题" "d.com").2.2 c7ItemNoDate rfl⟩

/-- C6: in the `news_time`-sorted list query (either direction, any
filters, any page), every returned row with an absent `news_time` comes
strictly after all returned rows with a present one: once a row at
position `i` has no date, every later position `j` also has no date. -/
theorem c6_news_time_nulls_last
    (rows : List IntelRow) (filt : IntelRow → Bool) (order : String)
    (page pageSize : Nat)
    (i j : Fin (getIntelligenceListNewsTime rows filt order page pageSize).length)
    (hij : i < j)
    (hnone : ((getIntelligenceListNewsTime rows filt order page pageSize).get i).news_time =
      none) :
    ((getIntelligenceListNewsTime rows filt order page pageSize).get j).news_time =
      none := by
  have hs : List.Sorted (intelNewsTimeOrder (pyLowerStr order = "desc"))
      (getIntelligenceListNewsTime rows filt order page pageSize) := by
    unfold getIntelligenceListNewsTime
    exact ((List.sorted_insertionSort _ _).sublist
      ((List.take_sublist _ _).trans (List.drop_sublist _ _)))
  have hrel := hs.rel_get_of_lt hij
  unfold intelNewsTimeOrder at hrel
  rw [hnone] at hrel
  cases hj : ((getIntelligenceListNewsTime rows filt order page pageSize).get j).news_time with
  | none => rfl
  | some y =>
    rw [hj] at hrel
    simp [newsTimeLeB, newsTimeNullRank] at hrel

/-- C6 witness: with two dateless rows and one dated row, position 1 of
the descending query output is dateless, so position 2 is as well. -/
theorem c6_news_time_nulls_last_witness :
    ((⟨1, by decide⟩ : Fin (getIntelligenceListNewsTime c6Rows (fun _ => true)
        "desc" 1 10).length) < ⟨2, by decide⟩) ∧
    ((getIntelligenceListNewsTime c6Rows (fun _ => true) "desc" 1 10).get
        ⟨1, by decide⟩).news_time = none ∧
    ((getIntelligenceListNewsTime c6Rows (fun _ => true) "desc" 1 10).get
        ⟨2, by decide⟩).news_time = none :=
  ⟨by decide, by decide,
   c6_news_time_nulls_last c6Rows (fun _ => true) "desc" 1 10
     ⟨1, by decide⟩ ⟨2, by decide⟩ (by decide) (by decide)⟩

/-- C9 counterexample: called with `sort_by="recipe_json"` — a real
`Source` column outside the allow-list — the filtered/sorted source query
returns the rows in `recipe_json` order, not in `id`-ascending order, so
the claim that every out-of-list `sort_by` yields `id`-ascending results
is false of the query function. -/
theorem c9_sort_allow_list_counterexample :
    getSourcesWithFilterAndSort [c9RowA, c9RowB] none none "recipe_json" "asc" =
      [c9RowB, c9RowA] ∧
    getSourcesWithFilterAndSort [c9RowA, c9RowB] none none "recipe_json" "asc" ≠
      [c9RowA, c9RowB] ∧
    validSortFields.contains "recipe_json" = false := by
  refine ⟨by decide, ?_, by decide⟩
  intro h
  have := (by decide :
    getSourcesWithFilterAndSort [c9RowA, c9RowB] none none "recipe_json" "asc" =
      [c9RowB, c9RowA])
  rw [h] at this
  exact absurd (List.cons.injEq .. ▸ this).1 (by decide)

/-- C9 amended: the allow-list lives in the endpoints, not in the query
function. For `sort` outside `{id, domain, created_at, updated_at}` the
endpoint queries with `sort='id'` (keeping the requested direction, which
itself falls back to ascending when invalid), so its result is sorted by
`id` in that direction; for `sort` inside the allow-list the result is
sorted by the requested column. The query function itself sorts by any
existing `Source` column (e.g. `recipe_json`). -/
theorem c9_sort_allow_list_amended :
    (∀ (rows : List SourceRowM) (q : Option String) (tid : Option Nat)
        (sort order : String), validSortFields.contains sort = false →
      apiGetSourcesTable rows q tid sort order =
        apiGetSourcesTable rows q tid "id" order ∧
      List.Sorted (sourceSortRel .id (dirDesc order))
        (apiGetSourcesTable rows q tid sort order)) ∧
    (∀ (rows : List SourceRowM) (q : Option String) (tid : Option Nat)
        (sort order : String), validSortFields.contains sort = true →
      List.Sorted (sourceSortRel (getattrSortCol sort) (dirDesc order))
        (apiGetSourcesTable rows q tid sort order)) := by
  have hdir : ∀ order : String,
      dirDesc (if ["asc", "desc"].contains (pyLowerStr order) then order
        else "asc") = dirDesc order := by
    intro order
    split <;> rename_i hvalid
    · rfl
    · have hne : pyLowerStr order ≠ "desc" := by
        intro he
        exact hvalid (by rw [he]; decide)
      rw [show dirDesc order = false from by simp [dirDesc, hne]]
      decide
  constructor
  · intro rows q tid sort order hsort
    constructor
    · simp only [apiGetSourcesTable, hsort, Bool.false_eq_true, if_false]
      have : validSortFields.contains "id" = true := by decide
      rw [this, if_pos rfl]
    · simp only [apiGetSourcesTable, hsort, Bool.false_eq_true, if_false,
        getSourcesWithFilterAndSort]
      have hcol : getattrSortCol "id" = .id := by decide
      rw [hcol, hdir order]
      exact List.sorted_insertionSort _ _
  · intro rows q tid sort order hsort
    simp only [apiGetSourcesTable, hsort, if_true, getSourcesWithFilterAndSort]
    rw [hdir order]
    exact List.sorted_insertionSort _ _

/-- C9 witness: the amended theorem at concrete calls — `sort="bogus"`
behaves as `sort="id"` and is id-sorted; an allow-listed `sort="domain"`
is domain-sorted. -/
theorem c9_sort_allow_list_amended_witness :
    validSortFields.contains "bogus" = false ∧
    apiGetSourcesTable [c9RowA, c9RowB] none none "bogus" "asc" =
      apiGetSourcesTable [c9RowA, c9RowB] none none "id" "asc" ∧
    List.Sorted (sourceSortRel .id (dirDesc "asc"))
      (apiGetSourcesTable [c9RowA, c9RowB] none none "bogus" "asc") ∧
    List.Sorted (sourceSortRel (getattrSortCol "domain") (dirDesc "desc"))
      (apiGetSourcesTable [c9RowA, c9RowB] none none "domain" "desc") :=
  ⟨by decide,
   (c9_sort_allow_list_amended.1 [c9RowA, c9RowB] none none "bogus" "asc"
      (by decide)).1,
   (c9_sort_allow_list_amended.1 [c9RowA, c9RowB] none none "bogus" "asc"
      (by decide)).2,
   c9_sort_allow_list_amended.2 [c9RowA, c9RowB] none none "domain" "desc"
      (by decide)⟩

/-! Helper lemmas for domain normalization. -/

theorem isPrefixOf_slash2_eq_false (l : List Char) (h : ∀ c ∈ l, ¬ c = '/') :
    List.isPrefixOf ['/', '/'] l = false := by
  cases l with
  | nil => rfl
  | cons d t =>
    have hd : ('/' == d) = false := by
      simp only [beq_eq_false_iff_ne, ne_eq]
      exact fun he => (h d (by simp)) he.symm
    simp [List.isPrefixOf, hd]

theorem isPrefixOf_schemeSep_eq_false (l : List Char) (h : ∀ c ∈ l, ¬ c = '/') :
    List.isPrefixOf ("://".data) l = false := by
  cases l with
  | nil => rfl
  | cons d t =>
    have hpre : List.isPrefixOf ['/', '/'] t = false :=
      isPrefixOf_slash2_eq_false t (fun c hc => h c (List.mem_cons_of_mem _ hc))
    show List.isPrefixOf [':', '/', '/'] (d :: t) = false
    simp [List.isPrefixOf, hpre]

theorem hasSub_schemeSep_eq_false (l : List Char) (h : ∀ c ∈ l, ¬ c = '/') :
    hasSub ("://".data) l = false := by
  induction l with
  | nil => rfl
  | cons d t ih =>
    show hasSub ("://".data) (d :: t) = false
    rw [hasSub, isPrefixOf_schemeSep_eq_false _ h,
      ih (fun c hc => h c (List.mem_cons_of_mem _ hc))]
    rfl

theorem parseDomain_fixed_of_normal (r : List Char)
    (h : domainNormalForm r = true) : parseDomain r = some r := by
  simp only [domainNormalForm, Bool.and_eq_true, List.all_eq_true,
    decide_eq_true_eq, beq_iff_eq, Bool.not_eq_true', not_or] at h
  obtain ⟨⟨⟨⟨hascii, hstrip⟩, hchars⟩, hlower⟩, hwww⟩ := h
  by_cases hempty : r = []
  · subst hempty; rfl
  · have hslash : ∀ c ∈ r, ¬ c = '/' := fun c hc => (hchars c hc).1
    have hcontains : ∀ a : Char,
        (a = '/' ∨ a = '?' ∨ a = '#' ∨ a = '[' ∨ a = ']' ∨
         a = '\t' ∨ a = '\r' ∨ a = '\n') → r.contains a = false := by
      intro a hforms
      cases hc : r.contains a with
      | false => rfl
      | true =>
        have hmem : a ∈ r := by simpa using hc
        have := hchars a hmem
        rcases hforms with hf | hf | hf | hf | hf | hf | hf | hf <;>
          simp [hf] at this
    have hfilter : r.filter (fun c => ¬ (c = '\t' ∨ c = '\r' ∨ c = '\n')) = r := by
      rw [List.filter_eq_self]
      intro a ha
      have := hchars a ha
      simp [this.2.2.2.2.2.1, this.2.2.2.2.2.2.1, this.2.2.2.2.2.2.2]
    have htake : r.takeWhile (fun c => ¬ (c = '/' ∨ c = '?' ∨ c = '#')) = r := by
      rw [List.takeWhile_eq_self_iff]
      intro a ha
      have := hchars a ha
      simp [this.1, this.2.1, this.2.2.1]
    have hdrop : r.dropWhile (fun c => ¬ (c = '/' ∨ c = '?' ∨ c = '#')) = [] := by
      rw [List.dropWhile_eq_nil_iff]
      intro a ha
      have := hchars a ha
      simp [this.1, this.2.1, this.2.2.1]
    have hsplit : pyUrlsplit (("https://".data) ++ r) =
        some ⟨"https".data, r, [], [], []⟩ := by
      have h1 : lstripC0 (("https://".data) ++ r) = ("https://".data) ++ r := by
        show List.dropWhile _ ('h' :: _) = _
        rw [List.dropWhile_cons]
        simp
      have h2 : removeUnsafe (("https://".data) ++ r) = ("https://".data) ++ r := by
        unfold removeUnsafe
        rw [List.filter_append]
        have : ("https://".data).filter (fun c => ¬ (c = '\t' ∨ c = '\r' ∨ c = '\n')) =
            "https://".data := by decide
        rw [this, hfilter]
      have h3 : splitFirst ':' (("https://".data) ++ r) =
          some (['h', 't', 't', 'p', 's'], ['/', '/'] ++ r) := by
        show splitFirst ':' ('h' :: 't' :: 't' :: 'p' :: 's' :: ':' :: '/' :: '/' :: r) = _
        simp +decide [splitFirst]
      have h4 : schemeSplit (("https://".data) ++ r) = ("https".data, ['/', '/'] ++ r) := by
        unfold schemeSplit
        rw [h3]
        dsimp only
        rw [if_pos ⟨by simp, rfl, by decide⟩]
        rw [Prod.mk.injEq]
        exact ⟨by decide, rfl⟩
      have hnet : splitnetloc r = (r, []) := by
        unfold splitnetloc
        rw [htake, hdrop]
      have hbrL := hcontains '[' (by simp)
      have hbrR := hcontains ']' (by simp)
      simp only [pyUrlsplit, h1, h2, h4]
      simp only [show List.take 2 (['/', '/'] ++ r) = ['/', '/'] from rfl,
        show List.drop 2 (['/', '/'] ++ r) = r from rfl]
      simp only [decide_eq_true_eq, if_true, hnet]
      rw [if_neg, if_neg]
      · rfl
      · rintro ⟨_, hins, _, _⟩
        rw [hbrL] at hins
        exact absurd hins (by simp)
      · rintro ⟨_, hestr | hestr⟩
        · rw [hbrL] at hestr
          exact absurd hestr.1 (by simp)
        · rw [hbrR] at hestr
          exact absurd hestr.1 (by simp)
    have hparse : pyUrlparse (("https://".data) ++ r) = some ("https".data, r, []) := by
      unfold pyUrlparse
      rw [hsplit]
      dsimp only
      rw [if_neg]
      rintro ⟨_, hsemi⟩
      exact absurd hsemi (by simp)
    simp only [parseDomain, hstrip]
    rw [if_neg hempty]
    rw [hasSub_schemeSep_eq_false r hslash]
    simp only [Bool.false_eq_true, if_false]
    rw [hparse]
    dsimp only
    rw [if_pos hempty]
    have htk : r.takeWhile (fun c => c ≠ '/') = r := by
      rw [List.takeWhile_eq_self_iff]
      intro a ha
      simp [(hchars a ha).1]
    rw [htk, if_neg (by simp [hwww]), hlower]

/-- C1 counterexample: `_parse_domain` tests the `www.` prefix before
lower-casing, so `_parse_domain("WWW.Example.com/path")` is
`"www.example.com"`, not `"example.com"`, and applying the function a
second time gives a different value — the claimed idempotence and the
claimed example value both fail at this input. -/
theorem c1_domain_normalization_counterexample :
    parseDomain ("WWW.Example.com/path".data) = some ("www.example.com".data) ∧
    parseDomain ("WWW.Example.com/path".data) ≠ some ("example.com".data) ∧
    (parseDomain ("WWW.Example.com/path".data)).bind parseDomain ≠
      parseDomain ("WWW.Example.com/path".data) :=
  ⟨by decide, by decide, by decide⟩

/-- C1 amended: domain normalization strips scheme and path and
lower-cases, but strips only an exact lower-case `www.` prefix (the test
precedes lower-casing), so `_parse_domain("WWW.Example.com/path")` is
`"www.example.com"` while `_parse_domain("https://Example.COM")` is
`"example.com"`; normalization is idempotent on every ASCII string
already in normal form — stripped, lower-case, free of `/ ? # [ ]` and
tab/CR/LF, and not beginning with `www.` — rather than on all inputs. -/
theorem c1_domain_normalization_amended :
    parseDomain ("WWW.Example.com/path".data) = some ("www.example.com".data) ∧
    parseDomain ("https://Example.COM".data) = some ("example.com".data) ∧
    ∀ r : List Char, domainNormalForm r = true → parseDomain r = some r :=
  ⟨by decide, by decide, parseDomain_fixed_of_normal⟩

/-- C1 witness: the already-normal string `example.com` is a fixed point
of normalization. -/
theorem c1_domain_normalization_amended_witness :
    domainNormalForm ("example.com".data) = true ∧
    parseDomain ("example.com".data) = some ("example.com".data) :=
  ⟨by decide, c1_domain_normalization_amended.2.2 ("example.com".data) (by decide)⟩

end AICrawl
